import Mathlib

/-!
Verification development for the oemof solph analyzer module
(src/oemof/solph/analyzer.py together with the flow-classification helper
in src/oemof/outputlib/views.py).

The module is shallowly embedded: datasets, analyzer instances and the
scheduler state become Lean structures; dictionary lookups become
association-list lookups returning Option; Python exceptions become an
explicit error type threaded through Except.  Where an exception leaves
the Python object graph in a mutated state, functions return the state
together with the error.
-/

deriving instance DecidableEq for Except

namespace Oemof

/-- A node of the energy system.  Nodes are opaque identifiers; the only
structure the analyzer code observes is identity (equality) and whether
the node is a Bus (used by BusBalanceAnalyzer via isinstance). -/
structure PyNode where
  ident : Nat
  isBus : Bool
deriving DecidableEq, Repr

/-- A dataset key: a pair of a from-node and an optional to-node.
A missing second component is a node-level key (args[1] is None). -/
abbrev FlowKey := PyNode × Option PyNode

/-- One entry of a results dictionary: the scalars Series and the
sequences DataFrame, both modelled as name-indexed association lists.
Sequences are lists of numeric samples. -/
structure ResultEntry where
  scalars : List (String × ℚ)
  sequences : List (String × List ℚ)
deriving DecidableEq, Repr

/-- A results dictionary (results or param_results): an insertion-ordered
mapping from flow keys to entries (Python dicts preserve insertion order,
which the iterators rely on). -/
abbrev Dataset := List (FlowKey × ResultEntry)

/-- First-match lookup in an association list, the model of a Python
dict lookup. -/
def alookup {α β : Type} [BEq α] : List (α × β) → α → Option β
  | [], _ => none
  | (k0, v) :: rest, k => if k0 == k then some v else alookup rest k

/-- Insertion-ordered dict assignment: overwrite in place if the key is
present, otherwise append. -/
def odInsert {α β : Type} [BEq α] (l : List (α × β)) (k : α) (v : β) : List (α × β) :=
  match l with
  | [] => [(k, v)]
  | (k0, v0) :: rest => if k0 == k then (k, v) :: rest else (k0, v0) :: odInsert rest k v

/-- The analyzer classes defined in the module. -/
inductive AnalyzerType
  | sequenceFlowSum
  | size
  | invest
  | variableCost
  | flowType
  | nodeBalance
  | busBalance
  | lcoe
deriving DecidableEq, Repr

/-- The class name of each analyzer, used as the chain dictionary key
(the code keys chains by analyzer.__class__.__name__). -/
def className : AnalyzerType → String
  | .sequenceFlowSum => "SequenceFlowSumAnalyzer"
  | .size => "SizeAnalyzer"
  | .invest => "InvestAnalyzer"
  | .variableCost => "VariableCostAnalyzer"
  | .flowType => "FlowTypeAnalyzer"
  | .nodeBalance => "NodeBalanceAnalyzer"
  | .busBalance => "BusBalanceAnalyzer"
  | .lcoe => "LCOEAnalyzer"

/-- The three concrete iterator classes. -/
inductive IterType
  | flowNode
  | tuple
  | node
deriving DecidableEq, Repr

/-- issubclass on the concrete iterator classes: the three classes are
unrelated siblings (each directly extends the abstract Iterator), so the
relation is equality. -/
def issubclassIter (sub sup : IterType) : Bool := sub == sup

/-- The attribute names an analyzer can require on the Analysis object. -/
inductive Req
  | results
  | param_results
deriving DecidableEq, Repr

/-- The static requires tuple of each analyzer class. -/
def requiresOf : AnalyzerType → List Req
  | .sequenceFlowSum => [.results]
  | .size => [.results]
  | .invest => [.results, .param_results]
  | .variableCost => [.results, .param_results]
  | .flowType => [.results]
  | .nodeBalance => [.results, .param_results]
  | .busBalance => [.results, .param_results]
  | .lcoe => []

/-- The static required_iterator attribute of each analyzer class
(NodeBalanceAnalyzer declares FlowNodeIterator; BusBalanceAnalyzer
inherits it). -/
def requiredIterator : AnalyzerType → Option IterType
  | .nodeBalance => some .flowNode
  | .busBalance => some .flowNode
  | _ => none

/-- The static depends_on tuple of each analyzer class. -/
def dependsOn : AnalyzerType → List AnalyzerType
  | .invest => [.size]
  | .variableCost => [.sequenceFlowSum]
  | .nodeBalance => [.sequenceFlowSum, .flowType]
  | .busBalance => [.sequenceFlowSum, .flowType]
  | .lcoe => [.sequenceFlowSum, .variableCost, .invest]
  | _ => []

/-- The static depends_on_former tuple of each analyzer class. -/
def dependsOnFormer : AnalyzerType → List AnalyzerType
  | .lcoe => [.nodeBalance]
  | _ => []

/-- Keys of an analyzer result dictionary.  Most analyzers key their
results by the full args tuple; NodeBalanceAnalyzer keys its results by
the bare node args[0].  In Python both kinds live in one dict, modelled
here by a sum. -/
inductive ResKey
  | node (n : PyNode)
  | pair (k : FlowKey)
deriving DecidableEq, Repr

/-- Values of an analyzer result dictionary: plain numbers, the
flow-type classification produced by views.get_flow_type, the per-node
balance of NodeBalanceAnalyzer, and the LCOEResult named tuple. -/
inductive ResVal
  | num (q : ℚ)
  | flowTypes (single inputs outputs : List FlowKey)
  | balance (inputs outputs : List (PyNode × ℚ))
  | lcoeRes (investment variable_costs : ℚ)
deriving DecidableEq, Repr

/-- A registered analyzer object.  iid models Python object identity
(the waiting-line membership test compares by identity).  loadSinks and
totalLoad are only used by the LCOEAnalyzer class; they stay at their
construction defaults for the other classes. -/
structure AnalyzerInst where
  atype : AnalyzerType
  iid : Nat
  result : List (ResKey × ResVal)
  total : ℚ
  loadSinks : List PyNode
  totalLoad : ℚ
deriving DecidableEq, Repr

/-- The Analysis scheduler state.  nextId is the identity allocator for
freshly constructed analyzer objects. -/
structure Analysis where
  results : Option Dataset
  param_results : Option Dataset
  iterator : IterType
  waitingLine : List AnalyzerInst
  chain : List (AnalyzerType × AnalyzerInst)
  formerChain : List (AnalyzerType × AnalyzerInst)
  nextId : Nat
deriving DecidableEq, Repr

/-- The exceptions the module can raise.  FormerDependencyError
subclasses DependencyError in the source; the only except clause that
catches DependencyError guards code that can raise nothing but the base
class, so separate constructors are faithful. -/
inductive PyError
  | requirementError (msg : String)
  | dependencyError (msg : String)
  | formerDependencyError (msg : String)
  | keyError (msg : String)
  | typeError (msg : String)
  | zeroDivisionError
  | recursionError
deriving DecidableEq, Repr

/-- Analysis.clean: discard the waiting line and both chains.  Every
analyzer object held by the scheduler is dropped, so identity
comparisons after a clean never involve a pre-clean instance; the
identity allocator restarts accordingly. -/
def clean (st : Analysis) : Analysis :=
  { st with waitingLine := [], chain := [], formerChain := [], nextId := 0 }

/-- Analysis.__init__: store the datasets, default the iterator to
FlowNodeIterator, and clean. -/
def initAnalysis (results param_results : Option Dataset) (iterator : Option IterType) : Analysis :=
  clean { results := results, param_results := param_results,
          iterator := iterator.getD .flowNode,
          waitingLine := [], chain := [], formerChain := [], nextId := 0 }

/-- Analysis.check_iterator: a declared required_iterator must be a
superclass of the active iterator class, otherwise RequirementError. -/
def check_iterator (st : Analysis) (t : AnalyzerType) : Except PyError Unit :=
  match requiredIterator t with
  | none => .ok ()
  | some req =>
    if issubclassIter st.iterator req then .ok ()
    else .error (.requirementError ("Analyzer " ++ className t ++ " requires another iterator"))

/-- getattr(self, req) for the requirement attribute names. -/
def getattrReq (st : Analysis) : Req → Option Dataset
  | .results => st.results
  | .param_results => st.param_results

/-- Analysis.check_requirements: every name in the requires tuple must
be a non-None attribute of the analysis, otherwise RequirementError
(raised at the first missing one). -/
def check_requirements (st : Analysis) (t : AnalyzerType) : Except PyError Unit :=
  match (requiresOf t).find? (fun r => (getattrReq st r).isNone) with
  | some _ => .error (.requirementError ("Component " ++ className t ++ " misses a requirement"))
  | none => .ok ()

/-- The keys (class names) of a chain dictionary. -/
def chainNames (c : List (AnalyzerType × AnalyzerInst)) : List AnalyzerType := c.map Prod.fst

/-- The inner check_deps closure of Analysis.check_dependencies: raise
DependencyError at the first dependency whose class name is not among
the given chain keys. -/
def checkDeps (t : AnalyzerType) (deps keys : List AnalyzerType) : Except PyError Unit :=
  match deps.find? (fun d => !(keys.contains d)) with
  | some d => .error (.dependencyError
      ("Analyzer " ++ className t ++ " depends on analyzer " ++ className d))
  | none => .ok ()

/-- Analysis.check_dependencies: the depends_on check runs against
former plus current chain and its DependencyError propagates; the
depends_on_former check runs against the former chain only and its
DependencyError is caught, yielding False.  (The is-not-None guards in
the source are always true: every analyzer class carries tuples.) -/
def check_dependencies (st : Analysis) (a : AnalyzerInst) : Except PyError Bool :=
  match checkDeps a.atype (dependsOn a.atype) (chainNames st.formerChain ++ chainNames st.chain) with
  | .error e => .error e
  | .ok _ =>
    match checkDeps a.atype (dependsOnFormer a.atype) (chainNames st.formerChain) with
    | .error _ => .ok false
    | .ok _ => .ok true

/-- Analysis.get_analyzer: look the class name up in the current chain
first, then in the former chain, and raise KeyError if absent in both. -/
def get_analyzer (st : Analysis) (t : AnalyzerType) : Except PyError AnalyzerInst :=
  match alookup st.chain t with
  | some a => .ok a
  | none =>
    match alookup st.formerChain t with
    | some a => .ok a
    | none => .error (.keyError ("Analyzer " ++ className t ++ " not found."))

/-- Analysis.__store_results: former_chain.update(chain) followed by a
fresh current chain. -/
def store_results (st : Analysis) : Analysis :=
  { st with
    formerChain := st.chain.foldl (fun f p => odInsert f p.1 p.2) st.formerChain,
    chain := [] }

/-- Construction of a fresh analyzer object of a class (the dependency()
call sites): empty result dict, zero total. -/
def mkInstance (t : AnalyzerType) (iid : Nat) : AnalyzerInst :=
  { atype := t, iid := iid, result := [], total := 0, loadSinks := [], totalLoad := 0 }

/-- Analysis.add_analyzer: a no-op when the same object is already in
the waiting line, otherwise requirement and iterator checks, recursive
registration of a freshly constructed instance of every declared
dependency (the foldlM is the for-loop over depends_on plus
depends_on_former), and finally an append to the waiting line.  A raised
exception leaves the already performed appends in place, so errors carry
the state.  Fuel models Python recursion depth (the dependency graph of
the concrete classes has depth three). -/
def addAux : Nat → Analysis → AnalyzerInst → Except (PyError × Analysis) Analysis
  | 0, st, _ => .error (.recursionError, st)
  | fuel + 1, st, a =>
    if st.waitingLine.any (fun b => b.iid == a.iid) then .ok st
    else
      match check_requirements st a.atype with
      | .error e => .error (e, st)
      | .ok _ =>
        match check_iterator st a.atype with
        | .error e => .error (e, st)
        | .ok _ =>
          match (dependsOn a.atype ++ dependsOnFormer a.atype).foldlM
              (fun s t => addAux fuel { s with nextId := s.nextId + 1 } (mkInstance t s.nextId))
              st with
          | .error e => .error e
          | .ok st2 => .ok { st2 with waitingLine := st2.waitingLine ++ [a] }

/-- Recursion depth that is ample for the fixed dependency graph. -/
def addFuel : Nat := 8

/-- add_analyzer at the standard recursion depth. -/
def add_analyzer (st : Analysis) (a : AnalyzerInst) : Except (PyError × Analysis) Analysis :=
  addAux addFuel st a

/-- Register a freshly constructed analyzer of a class (the caller-side
AnalyzerClass() followed by add_analyzer). -/
def registerNew (st : Analysis) (t : AnalyzerType) : Except (PyError × Analysis) Analysis :=
  add_analyzer { st with nextId := st.nextId + 1 } (mkInstance t st.nextId)

/-- Register a freshly constructed LCOEAnalyzer(load_sinks). -/
def registerLCOE (st : Analysis) (sinks : List PyNode) : Except (PyError × Analysis) Analysis :=
  add_analyzer { st with nextId := st.nextId + 1 }
    { mkInstance .lcoe st.nextId with loadSinks := sinks }

/-- The key sequence produced by the active iterator class: every
iterator snapshots the keys of param_results at construction.
FlowNodeIterator lists flow keys first then node keys, TupleIterator
lists all keys, NodeIterator lists node keys only.  Iterating a None
param_results raises TypeError. -/
def iterItems (st : Analysis) : Except PyError (List FlowKey) :=
  match st.param_results with
  | none => .error (.typeError "param_results is not iterable")
  | some pr =>
    let keys := pr.map Prod.fst
    .ok (match st.iterator with
      | .flowNode => keys.filter (fun k => k.2.isSome) ++ keys.filter (fun k => !k.2.isSome)
      | .tuple => keys
      | .node => keys.filter (fun k => !k.2.isSome))

/-- Analyzer.rsq: self.analysis.results[args]["sequences"]; KeyError
when the key is absent, TypeError when results is None. -/
def rsq (st : Analysis) (k : FlowKey) : Except PyError (List (String × List ℚ)) :=
  match st.results with
  | none => .error (.typeError "results is None")
  | some rs =>
    match alookup rs k with
    | none => .error (.keyError "key not in results")
    | some e => .ok e.sequences

/-- Analyzer.rsc: self.analysis.results[args]["scalars"]. -/
def rsc (st : Analysis) (k : FlowKey) : Except PyError (List (String × ℚ)) :=
  match st.results with
  | none => .error (.typeError "results is None")
  | some rs =>
    match alookup rs k with
    | none => .error (.keyError "key not in results")
    | some e => .ok e.scalars

/-- Analyzer.psc: self.analysis.param_results[args]["scalars"]. -/
def psc (st : Analysis) (k : FlowKey) : Except PyError (List (String × ℚ)) :=
  match st.param_results with
  | none => .error (.typeError "param_results is None")
  | some pr =>
    match alookup pr k with
    | none => .error (.keyError "key not in param_results")
    | some e => .ok e.scalars

/-- Analyzer.psq: self.analysis.param_results[args]["sequences"]. -/
def psq (st : Analysis) (k : FlowKey) : Except PyError (List (String × List ℚ)) :=
  match st.param_results with
  | none => .error (.typeError "param_results is None")
  | some pr =>
    match alookup pr k with
    | none => .error (.keyError "key not in param_results")
    | some e => .ok e.sequences

/-- Numeric lookup in an analyzer result dict.  All values these call
sites can meet are written as ResVal.num. -/
def lookupNum (res : List (ResKey × ResVal)) (k : ResKey) : Option ℚ :=
  match alookup res k with
  | some (.num v) => some v
  | _ => none

/-- SequenceFlowSumAnalyzer.analyze: sum the flow sequence of the key;
a KeyError (key absent from results, or no flow sequence) skips the key
silently.  On success the sum is recorded and added to the total. -/
def sequenceFlowSumAnalyze (st : Analysis) (a : AnalyzerInst) (k : FlowKey) :
    Except PyError AnalyzerInst :=
  match rsq st k with
  | .error (.keyError _) => .ok a
  | .error e => .error e
  | .ok seqs =>
    match alookup seqs "flow" with
    | none => .ok a
    | some fl =>
      let r := fl.sum
      .ok { a with result := odInsert a.result (.pair k) (.num r), total := a.total + r }

/-- SizeAnalyzer.analyze: record the invest scalar of the key; KeyError
skips. -/
def sizeAnalyze (st : Analysis) (a : AnalyzerInst) (k : FlowKey) :
    Except PyError AnalyzerInst :=
  match rsc st k with
  | .error (.keyError _) => .ok a
  | .error e => .error e
  | .ok scal =>
    match alookup scal "invest" with
    | none => .ok a
    | some r =>
      .ok { a with result := odInsert a.result (.pair k) (.num r), total := a.total + r }

/-- InvestAnalyzer.analyze: the SizeAnalyzer result dict is fetched
outside the try block, so its absence from the chains propagates as
KeyError; inside the try block, absence of the param entry, of the Size
result for the key, or of the investment_ep_costs scalar skips the key.
The non-numeric dependency-value branch cannot occur because
SizeAnalyzer writes only numbers. -/
def investAnalyze (st : Analysis) (a : AnalyzerInst) (k : FlowKey) :
    Except PyError AnalyzerInst :=
  match get_analyzer st .size with
  | .error e => .error e
  | .ok dep =>
    match psc st k with
    | .error (.keyError _) => .ok a
    | .error e => .error e
    | .ok scal =>
      match alookup dep.result (.pair k) with
      | none => .ok a
      | some sv =>
        match alookup scal "investment_ep_costs" with
        | none => .ok a
        | some invest =>
          match sv with
          | .num size =>
            let r := invest * size
            .ok { a with result := odInsert a.result (.pair k) (.num r), total := a.total + r }
          | _ => .error (.typeError "unsupported operand")

/-- VariableCostAnalyzer.analyze: like InvestAnalyzer with the
SequenceFlowSumAnalyzer dependency and the variable_costs scalar (the
scalar is read before the dependency result). -/
def variableCostAnalyze (st : Analysis) (a : AnalyzerInst) (k : FlowKey) :
    Except PyError AnalyzerInst :=
  match get_analyzer st .sequenceFlowSum with
  | .error e => .error e
  | .ok dep =>
    match psc st k with
    | .error (.keyError _) => .ok a
    | .error e => .error e
    | .ok scal =>
      match alookup scal "variable_costs" with
      | none => .ok a
      | some variableCost =>
        match alookup dep.result (.pair k) with
        | none => .ok a
        | some fv =>
          match fv with
          | .num flowSum =>
            let r := variableCost * flowSum
            .ok { a with result := odInsert a.result (.pair k) (.num r), total := a.total + r }
          | _ => .error (.typeError "unsupported operand")

/-- views.get_flow_type: bucket the keys of a results dict relative to a
node.  A key whose from-node is the node and whose to-node is absent is
a single flow; otherwise a key whose to-node is the node is an input;
otherwise a key whose from-node is the node is an output.  (The string
dataset variant that compares against a literal None string is outside
this embedding, which models object-keyed datasets.) -/
def get_flow_type (n : PyNode) (rs : Dataset) : ResVal :=
  let keys := rs.map Prod.fst
  .flowTypes
    (keys.filter (fun kk => kk.1 == n && kk.2 == none))
    (keys.filter (fun kk => !(kk.1 == n && kk.2 == none) && kk.2 == some n))
    (keys.filter (fun kk =>
      !(kk.1 == n && kk.2 == none) && !(kk.2 == some n) && kk.1 == n))

/-- FlowTypeAnalyzer.analyze: on node-level keys, store the
classification of all result keys around the node, keyed by the full
args tuple. -/
def flowTypeAnalyze (st : Analysis) (a : AnalyzerInst) (k : FlowKey) :
    Except PyError AnalyzerInst :=
  if k.2 == none then
    match st.results with
    | none => .error (.typeError "results is None")
    | some rs => .ok { a with result := odInsert a.result (.pair k) (get_flow_type k.1 rs) }
  else .ok a

/-- The input half of NodeBalanceAnalyzer.analyze: for every input flow
with a SequenceFlowSum result, map the from-node (flow[0]) to that
result; flows without one are skipped by the inner KeyError handler. -/
def nbInputPairs (seqRes : List (ResKey × ResVal)) (flows : List FlowKey) :
    List (PyNode × ℚ) :=
  flows.foldl (fun acc fl =>
    match alookup seqRes (.pair fl) with
    | some (.num v) => odInsert acc fl.1 v
    | _ => acc) []

/-- The output half of NodeBalanceAnalyzer.analyze: map the to-node
(flow[1]) of every output flow with a SequenceFlowSum result to that
result.  Output-bucket flows always carry a to-node, so the anonymous
branch is dead. -/
def nbOutputPairs (seqRes : List (ResKey × ResVal)) (flows : List FlowKey) :
    List (PyNode × ℚ) :=
  flows.foldl (fun acc fl =>
    match fl.2, alookup seqRes (.pair fl) with
    | some tn, some (.num v) => odInsert acc tn v
    | _, _ => acc) []

/-- NodeBalanceAnalyzer.analyze: only node-level keys are processed;
the FlowTypeAnalyzer result for the key gates the computation (absence
skips); the balance is stored under the bare node args[0], not under the
full args tuple.  The analyzer never touches its total. -/
def nodeBalanceAnalyze (st : Analysis) (a : AnalyzerInst) (k : FlowKey) :
    Except PyError AnalyzerInst :=
  if k.2.isSome then .ok a
  else
    match get_analyzer st .sequenceFlowSum with
    | .error e => .error e
    | .ok seqDep =>
      match get_analyzer st .flowType with
      | .error e => .error e
      | .ok ftDep =>
        match alookup ftDep.result (.pair k) with
        | none => .ok a
        | some (.flowTypes _ inputs outputs) =>
          .ok { a with result :=
                  (odInsert a.result (.node k.1)
                    (.balance (nbInputPairs seqDep.result inputs)
                              (nbOutputPairs seqDep.result outputs))) }
        | some _ => .error (.typeError "not subscriptable")

/-- BusBalanceAnalyzer.analyze: return unless args[0] is a Bus, then
defer to NodeBalanceAnalyzer.analyze. -/
def busBalanceAnalyze (st : Analysis) (a : AnalyzerInst) (k : FlowKey) :
    Except PyError AnalyzerInst :=
  if !k.1.isBus then .ok a else nodeBalanceAnalyze st a k

/-- The body of the inner loop of LCOEAnalyzer.init_analyzer: the
statement total_load += seq_result[(from_node, to_node)], whose lookup
failure is an uncaught KeyError. -/
def lcoeFlowStep (seqRes : List (ResKey × ResVal)) (toNode : PyNode) (acc2 : ℚ)
    (fromNode : PyNode) : Except PyError ℚ :=
  match alookup seqRes (.pair (fromNode, some toNode)) with
  | some (.num v) => .ok (acc2 + v)
  | some _ => .error (.typeError "unsupported operand")
  | none => .error (.keyError "flow missing in results")

/-- The body of the outer loop of LCOEAnalyzer.init_analyzer: iterate
the keys of the input bucket of nb_result[to_node]; the node-balance
lookup failure is an uncaught KeyError. -/
def lcoeSinkStep (seqRes nbRes : List (ResKey × ResVal)) (acc : ℚ) (toNode : PyNode) :
    Except PyError ℚ :=
  match alookup nbRes (.node toNode) with
  | some (.balance inputs _) => (inputs.map Prod.fst).foldlM (lcoeFlowStep seqRes toNode) acc
  | some _ => .error (.typeError "not subscriptable")
  | none => .error (.keyError "load sink missing")

/-- LCOEAnalyzer.init_analyzer: for every load sink, walk the keys of
the input bucket of the NodeBalanceAnalyzer result of that sink and add
the SequenceFlowSum result of the corresponding flow to total_load. -/
def lcoeInit (st : Analysis) (a : AnalyzerInst) : Except PyError AnalyzerInst :=
  match get_analyzer st .sequenceFlowSum with
  | .error e => .error e
  | .ok seqDep =>
    match get_analyzer st .nodeBalance with
    | .error e => .error e
    | .ok nbDep =>
      match a.loadSinks.foldlM (lcoeSinkStep seqDep.result nbDep.result) a.totalLoad with
      | .error e => .error e
      | .ok tl => .ok { a with totalLoad := tl }

/-- LCOEAnalyzer.analyze: a missing VariableCost result counts as zero
but arms the error flag; a missing Invest result returns (skips the key)
when the flag is armed, else counts as zero; otherwise both terms are
divided by total_load, the pair is stored under the args tuple, and the
sum of the components is added to the total.  Division by a zero
total_load raises ZeroDivisionError. -/
def lcoeAnalyze (st : Analysis) (a : AnalyzerInst) (k : FlowKey) :
    Except PyError AnalyzerInst :=
  match get_analyzer st .variableCost with
  | .error e => .error e
  | .ok vcDep =>
    match get_analyzer st .invest with
    | .error e => .error e
    | .ok invDep =>
      match lookupNum vcDep.result (.pair k), lookupNum invDep.result (.pair k) with
      | none, none => .ok a
      | vcOpt, invOpt =>
        let vc := vcOpt.getD 0
        let inv := invOpt.getD 0
        if a.totalLoad == 0 then .error .zeroDivisionError
        else
          .ok { a with
            result := odInsert a.result (.pair k)
              (.lcoeRes (inv / a.totalLoad) (vc / a.totalLoad)),
            total := a.total + (inv / a.totalLoad + vc / a.totalLoad) }

/-- Dynamic dispatch of analyzer.analyze(*args). -/
def analyzerAnalyze (st : Analysis) (a : AnalyzerInst) (k : FlowKey) :
    Except PyError AnalyzerInst :=
  match a.atype with
  | .sequenceFlowSum => sequenceFlowSumAnalyze st a k
  | .size => sizeAnalyze st a k
  | .invest => investAnalyze st a k
  | .variableCost => variableCostAnalyze st a k
  | .flowType => flowTypeAnalyze st a k
  | .nodeBalance => nodeBalanceAnalyze st a k
  | .busBalance => busBalanceAnalyze st a k
  | .lcoe => lcoeAnalyze st a k

/-- Dynamic dispatch of analyzer.init_analyzer(): only LCOEAnalyzer
overrides the no-op default. -/
def analyzerInit (st : Analysis) (a : AnalyzerInst) : Except PyError AnalyzerInst :=
  match a.atype with
  | .lcoe => lcoeInit st a
  | _ => .ok a

/-- One loop over the current chain: each analyzer is read from and
written back to the live chain, so later analyzers observe the updates
of earlier ones (the Python objects are shared through the chain dict).
An exception keeps the updates already written. -/
def foldChainKeys (f : Analysis → AnalyzerInst → Except PyError AnalyzerInst) :
    Analysis → List AnalyzerType → Except (PyError × Analysis) Analysis
  | st, [] => .ok st
  | st, t :: rest =>
    match alookup st.chain t with
    | none => foldChainKeys f st rest
    | some a =>
      match f st a with
      | .error e => .error (e, st)
      | .ok a2 => foldChainKeys f { st with chain := odInsert st.chain t a2 } rest

/-- The element loop of Analysis.__analyze_chain: for every key of the
traversal, run every current-chain analyzer in chain order on that key. -/
def foldElements : Analysis → List FlowKey → Except (PyError × Analysis) Analysis
  | st, [] => .ok st
  | st, k :: rest =>
    match foldChainKeys (fun s a => analyzerAnalyze s a k) st (chainNames st.chain) with
    | .error e => .error e
    | .ok st2 => foldElements st2 rest

/-- Analysis.__analyze_chain: init_analyzer on every chain member, then
the traversal with every chain member applied to every key. -/
def analyzeChain (st : Analysis) : Except (PyError × Analysis) Analysis :=
  match foldChainKeys analyzerInit st (chainNames st.chain) with
  | .error e => .error e
  | .ok st1 =>
    match iterItems st1 with
    | .error e => .error (e, st1)
    | .ok items => foldElements st1 items

/-- The partition loop of Analysis.__prepare_next_chain over the old
waiting line: ready analyzers enter the current chain, the rest return
to the waiting line; a DependencyError raised by a same-stage check
propagates. -/
def prepLoop : Analysis → Bool → List AnalyzerInst → Except (PyError × Analysis) (Analysis × Bool)
  | st, added, [] => .ok (st, added)
  | st, added, a :: rest =>
    match check_dependencies st a with
    | .error e => .error (e, st)
    | .ok true => prepLoop { st with chain := odInsert st.chain a.atype a } true rest
    | .ok false => prepLoop { st with waitingLine := st.waitingLine ++ [a] } added rest

/-- Message head of the FormerDependencyError raised on a stalled pass. -/
def formerMsgHead : String :=
  "Could not iterate over all Analyzers. Analyzers that could not be performed are: "

/-- Analysis.__prepare_next_chain: True (done) only when the waiting
line is already empty; otherwise partition it, and raise
FormerDependencyError naming the analyzers left in the waiting line if
the pass promoted nothing.  A pass that promotes at least one analyzer
returns False even if it empties the line. -/
def prepare_next_chain (st : Analysis) : Except (PyError × Analysis) (Bool × Analysis) :=
  if st.waitingLine.isEmpty then .ok (true, st)
  else
    match prepLoop { st with waitingLine := [] } false st.waitingLine with
    | .error e => .error e
    | .ok (st2, added) =>
      if added then .ok (false, st2)
      else .error (.formerDependencyError
        (formerMsgHead ++ String.intercalate ","
          (st2.waitingLine.map (fun a => className a.atype))), st2)

/-- The while-True loop of Analysis.analyze with explicit fuel: run the
chain, commit it, prepare the next chain, stop when prepare reports the
waiting line empty. -/
def analyzeFuel : Nat → Analysis → Except (PyError × Analysis) Analysis
  | 0, st => .error (.recursionError, st)
  | n + 1, st =>
    match analyzeChain st with
    | .error e => .error e
    | .ok st1 =>
      let st2 := store_results st1
      match prepare_next_chain st2 with
      | .error e => .error e
      | .ok (true, st3) => .ok st3
      | .ok (false, st3) => analyzeFuel n st3

/-- Analysis.analyze.  Every iteration that does not terminate the loop
promotes at least one waiting analyzer, so length-plus-one rounds are
ample. -/
def analyze (st : Analysis) : Except (PyError × Analysis) Analysis :=
  analyzeFuel (st.waitingLine.length + 1) st

/-- A caller-side registration command: construct an analyzer (with its
constructor arguments) and hand it to add_analyzer. -/
inductive RegCmd
  | reg (t : AnalyzerType)
  | regLCOE (sinks : List PyNode)
deriving DecidableEq, Repr

/-- Run a list of registration commands. -/
def runRegs : Analysis → List RegCmd → Except (PyError × Analysis) Analysis
  | st, [] => .ok st
  | st, c :: rest =>
    match (match c with
           | .reg t => registerNew st t
           | .regLCOE sinks => registerLCOE st sinks) with
    | .error e => .error e
    | .ok st2 => runRegs st2 rest

/-- A whole caller session: register an analyzer set, then analyze. -/
def runAll (st : Analysis) (cmds : List RegCmd) : Except (PyError × Analysis) Analysis :=
  match runRegs st cmds with
  | .error e => .error e
  | .ok st2 => analyze st2

/-- The invocation order realized by the loops of
Analysis.__analyze_chain (source: for element in self, then for analyzer
in chain.values): the traversal keys outermost, the chain innermost. -/
def analyzeChainOrder (cNames : List AnalyzerType) (items : List FlowKey) :
    List (AnalyzerType × FlowKey) :=
  items.foldl (fun acc el => acc ++ cNames.map (fun t => (t, el))) []

/-- Modelled from the spec: the sequential full-traversal policy, in
which each analyzer of the chain executes its entire traversal before
the next analyzer starts. -/
def seqFullTraversalOrder (cNames : List AnalyzerType) (items : List FlowKey) :
    List (AnalyzerType × FlowKey) :=
  cNames.foldl (fun acc t => acc ++ items.map (fun k => (t, k))) []

/-! Concrete fixtures used by witnesses and counterexamples. -/

/-- A plain node. -/
def n0 : PyNode := ⟨0, false⟩

/-- A plain node. -/
def n1 : PyNode := ⟨1, false⟩

/-- A plain node. -/
def n2 : PyNode := ⟨2, false⟩

/-- An entry with no scalars and no sequences. -/
def entryEmpty : ResultEntry := { scalars := [], sequences := [] }

/-- A scheduler with both datasets configured and the default iterator. -/
def goodSt : Analysis := initAnalysis (some []) (some []) none

/-- A scheduler whose param_results is None. -/
def noParamSt : Analysis := initAnalysis (some []) none none

/-- A scheduler running the TupleIterator. -/
def tupleSt : Analysis := initAnalysis (some []) (some []) (some .tuple)

/-- A SizeAnalyzer object sitting in the current chain. -/
def c2Chain : AnalyzerInst := mkInstance .size 0

/-- A distinct SizeAnalyzer object sitting in the former chain. -/
def c2Former : AnalyzerInst := { mkInstance .size 1 with total := 2 }

/-- A scheduler holding a SizeAnalyzer in both chains at once. -/
def c2St : Analysis := { goodSt with chain := [(.size, c2Chain)], formerChain := [(.size, c2Former)] }

/-- A stalled scheduler: the waiting line holds an LCOEAnalyzer whose
same-stage dependencies are all in the current chain while its
cross-barrier NodeBalanceAnalyzer dependency was never committed. -/
def c3wSt : Analysis :=
  { goodSt with
    chain := [(.sequenceFlowSum, mkInstance .sequenceFlowSum 0),
              (.variableCost, mkInstance .variableCost 1),
              (.invest, mkInstance .invest 2)],
    waitingLine := [{ mkInstance .lcoe 3 with loadSinks := [n0] }] }

/-- goodSt after one SizeAnalyzer registration. -/
def c4St1 : Analysis := { goodSt with waitingLine := [mkInstance .size 0], nextId := 1 }

/-- goodSt after registering two fresh SizeAnalyzer objects. -/
def c4St2 : Analysis :=
  { goodSt with waitingLine := [mkInstance .size 0, mkInstance .size 1], nextId := 2 }

/-- noParamSt after registering a SequenceFlowSumAnalyzer (a legal
registration: the analyzer requires only results). -/
def c3errSt : Analysis :=
  { noParamSt with waitingLine := [mkInstance .sequenceFlowSum 0], nextId := 1 }

/-- A scheduler whose datasets hold one flow key with an empty entry. -/
def c5St : Analysis :=
  initAnalysis (some [((n0, some n1), entryEmpty)]) (some [((n0, some n1), entryEmpty)]) none

/-- c5St with a SizeAnalyzer in the current chain (its result dict is
empty). -/
def c5invSt : Analysis := { c5St with chain := [(.size, mkInstance .size 0)] }

/-- A SequenceFlowSumAnalyzer carrying one committed flow sum. -/
def c6seq : AnalyzerInst :=
  { mkInstance .sequenceFlowSum 0 with result := [(.pair (n0, some n1), .num 100)] }

/-- A NodeBalanceAnalyzer whose balance lists n0 as the one input
neighbour of n1. -/
def c6nb : AnalyzerInst :=
  { mkInstance .nodeBalance 1 with result := [(.node n1, .balance [(n0, 100)] [])] }

/-- A VariableCostAnalyzer carrying one committed cost. -/
def c6vc : AnalyzerInst :=
  { mkInstance .variableCost 2 with result := [(.pair (n0, some n1), .num 125)] }

/-- An InvestAnalyzer with an empty result dict. -/
def c6inv : AnalyzerInst := mkInstance .invest 3

/-- A scheduler whose current chain carries the four dependencies of
LCOEAnalyzer. -/
def c6St : Analysis :=
  { goodSt with chain := [(.sequenceFlowSum, c6seq), (.nodeBalance, c6nb),
                          (.variableCost, c6vc), (.invest, c6inv)] }

/-- A fresh LCOEAnalyzer([n1]). -/
def c6a : AnalyzerInst := { mkInstance .lcoe 4 with loadSinks := [n1] }

/-- An LCOEAnalyzer whose total_load is already 100. -/
def c6b : AnalyzerInst := { mkInstance .lcoe 5 with totalLoad := 100 }

/-- A scheduler state with leftover bookkeeping, sharing its datasets
and iterator with goodSt. -/
def c9s1 : Analysis :=
  { goodSt with waitingLine := [mkInstance .size 5],
                formerChain := [(.size, mkInstance .size 6)], nextId := 7 }

/-- A FlowTypeAnalyzer that classified the node key of n2: one input
flow from n0 and one output flow to n1. -/
def c10ft : AnalyzerInst :=
  { mkInstance .flowType 0 with
    result := [(.pair (n2, none), .flowTypes [] [(n0, some n2)] [(n2, some n1)])] }

/-- A SequenceFlowSumAnalyzer with sums for both flows around n2. -/
def c10seq : AnalyzerInst :=
  { mkInstance .sequenceFlowSum 1 with
    result := [(.pair (n0, some n2), .num 5), (.pair (n2, some n1), .num 7)] }

/-- A scheduler carrying c10ft and c10seq in its current chain. -/
def c10St : Analysis := { goodSt with chain := [(.flowType, c10ft), (.sequenceFlowSum, c10seq)] }

/-- A fresh NodeBalanceAnalyzer. -/
def c10a : AnalyzerInst := mkInstance .nodeBalance 2

/-- A scheduler whose NodeBalanceAnalyzer has an empty result dict. -/
def c10nbSt : Analysis :=
  { goodSt with chain := [(.sequenceFlowSum, c10seq), (.nodeBalance, mkInstance .nodeBalance 3)] }

/-- A fresh LCOEAnalyzer([n0]). -/
def c10b : AnalyzerInst := { mkInstance .lcoe 4 with loadSinks := [n0] }

/-! ### Helper lemmas -/

theorem foldlAppend {α β : Type} (f : α → List β) :
    ∀ (l : List α) (acc : List β),
      l.foldl (fun a e => a ++ f e) acc = acc ++ l.foldl (fun a e => a ++ f e) [] := by
  intro l
  induction l with
  | nil => intro acc; simp
  | cons x xs ih =>
    intro acc
    simp only [List.foldl_cons]
    rw [ih (acc ++ f x), ih ([] ++ f x)]
    simp [List.append_assoc]

theorem analyzeChainOrder_nil (c : List AnalyzerType) : analyzeChainOrder c [] = [] := rfl

theorem analyzeChainOrder_cons (c : List AnalyzerType) (k : FlowKey) (items : List FlowKey) :
    analyzeChainOrder c (k :: items) = c.map (fun t => (t, k)) ++ analyzeChainOrder c items := by
  unfold analyzeChainOrder
  simp only [List.foldl_cons, List.nil_append]
  exact foldlAppend _ items (c.map fun t => (t, k))

theorem seqFullTraversalOrder_nil (items : List FlowKey) : seqFullTraversalOrder [] items = [] := rfl

theorem seqFullTraversalOrder_cons (t : AnalyzerType) (c : List AnalyzerType)
    (items : List FlowKey) :
    seqFullTraversalOrder (t :: c) items =
      items.map (fun k => (t, k)) ++ seqFullTraversalOrder c items := by
  unfold seqFullTraversalOrder
  simp only [List.foldl_cons, List.nil_append]
  exact foldlAppend _ c (items.map fun k => (t, k))

theorem analyzeChainOrder_nil_chain : ∀ items : List FlowKey, analyzeChainOrder [] items = [] := by
  intro items
  induction items with
  | nil => rfl
  | cons k items ih => rw [analyzeChainOrder_cons]; simpa using ih

theorem analyzeChainOrder_cons_chain (t : AnalyzerType) (c : List AnalyzerType) :
    ∀ items : List FlowKey,
      (analyzeChainOrder (t :: c) items).Perm
        (items.map (fun k => (t, k)) ++ analyzeChainOrder c items) := by
  intro items
  induction items with
  | nil => simp [analyzeChainOrder_nil]
  | cons k items ih =>
    rw [analyzeChainOrder_cons, analyzeChainOrder_cons]
    simp only [List.map_cons, List.cons_append]
    refine List.Perm.cons (t, k) ?_
    refine (ih.append_left (c.map fun u => (u, k))).trans ?_
    rw [← List.append_assoc, ← List.append_assoc]
    exact (List.perm_append_comm).append_right _

theorem filter_map_pair (c : List AnalyzerType) (t : AnalyzerType) (k : FlowKey) :
    (c.map (fun u => (u, k))).filter (fun p => p.1 == t) =
      (c.filter (fun u => u == t)).map (fun u => (u, k)) := by
  induction c with
  | nil => rfl
  | cons u c ih =>
    by_cases hu : u = t
    · subst hu
      simp only [List.map_cons, List.filter_cons]
      simp [ih]
    · simp only [List.map_cons, List.filter_cons]
      have h1 : ((u, k).1 == t) = false := by simp [hu]
      have h2 : (u == t) = false := by simp [hu]
      simp [h1, h2, ih]

/-! ### C1 -/

/-- C1: the claim that a stage executes its analyzers one full traversal
at a time is false: the inner loop of Analysis.__analyze_chain runs over
the chain and the outer loop over the keys, so with the chain
[SequenceFlowSumAnalyzer, SizeAnalyzer] and two keys the recorded
invocation order interleaves the two analyzers per key instead of
completing the first analyzer over all keys first. -/
theorem c1_counterexample :
    analyzeChainOrder [.sequenceFlowSum, .size] [(n0, none), (n1, none)] =
      [(.sequenceFlowSum, (n0, none)), (.size, (n0, none)),
       (.sequenceFlowSum, (n1, none)), (.size, (n1, none))] ∧
    seqFullTraversalOrder [.sequenceFlowSum, .size] [(n0, none), (n1, none)] =
      [(.sequenceFlowSum, (n0, none)), (.sequenceFlowSum, (n1, none)),
       (.size, (n0, none)), (.size, (n1, none))] ∧
    analyzeChainOrder [.sequenceFlowSum, .size] [(n0, none), (n1, none)] ≠
      seqFullTraversalOrder [.sequenceFlowSum, .size] [(n0, none), (n1, none)] := by
  refine ⟨by decide, by decide, by decide⟩

/-- C1 (amended): within one stage the execution interleaves per key:
every key of the traversal is processed by all current-chain analyzers
in chain order before the next key starts; each single analyzer still
visits the full traversal in traversal order; and the multiset of
invocations is the same as under the sequential full-traversal policy,
of which the realized order is a permutation but in general not an
equal list. -/
theorem c1_amended :
    (∀ (c : List AnalyzerType) (k : FlowKey) (items : List FlowKey),
      analyzeChainOrder c (k :: items) =
        c.map (fun t => (t, k)) ++ analyzeChainOrder c items) ∧
    (∀ (c : List AnalyzerType) (t : AnalyzerType) (items : List FlowKey),
      c.Nodup → t ∈ c →
      (analyzeChainOrder c items).filter (fun p => p.1 == t) =
        items.map (fun k => (t, k))) ∧
    (∀ (c : List AnalyzerType) (items : List FlowKey),
      (analyzeChainOrder c items).Perm (seqFullTraversalOrder c items)) := by
  refine ⟨analyzeChainOrder_cons, ?_, ?_⟩
  · intro c t items hn ht
    have hc : c.filter (fun u => u == t) = [t] := by
      rw [List.filter_beq, List.count_eq_one_of_mem hn ht]
      rfl
    induction items with
    | nil => simp [analyzeChainOrder_nil]
    | cons k items ih =>
      rw [analyzeChainOrder_cons, List.filter_append, ih, List.map_cons, filter_map_pair, hc]
      rfl
  · intro c items
    induction c with
    | nil => rw [analyzeChainOrder_nil_chain, seqFullTraversalOrder_nil]
    | cons t c ih =>
      rw [seqFullTraversalOrder_cons]
      exact (analyzeChainOrder_cons_chain t c items).trans (ih.append_left _)

/-- C1 (amended) witness at the chain [SequenceFlowSumAnalyzer,
SizeAnalyzer] and a single key. -/
theorem c1_amended_witness :
    ([AnalyzerType.sequenceFlowSum, AnalyzerType.size].Nodup ∧
      AnalyzerType.sequenceFlowSum ∈ [AnalyzerType.sequenceFlowSum, AnalyzerType.size]) ∧
    (analyzeChainOrder [AnalyzerType.sequenceFlowSum, AnalyzerType.size]
        [((n0 : PyNode), (none : Option PyNode))]).filter
        (fun p => p.1 == AnalyzerType.sequenceFlowSum) =
      [(AnalyzerType.sequenceFlowSum, ((n0 : PyNode), (none : Option PyNode)))] :=
  ⟨⟨by decide, by decide⟩, c1_amended.2.1 _ _ _ (by decide) (by decide)⟩

/-! ### C2 -/

/-- C2: counterexample to the former-chain-first lookup order: with one
SizeAnalyzer object in the current chain and a different one in the
former chain, get_analyzer returns the current-chain object, not the
former-chain one the claim promises. -/
theorem c2_counterexample :
    get_analyzer c2St .size = .ok c2Chain ∧
    alookup c2St.formerChain .size = some c2Former ∧
    c2Chain ≠ c2Former := by
  refine ⟨by decide, by decide, by decide⟩

/-- C2 (amended): get_analyzer consults the current chain first and the
former chain second: a current-chain hit is returned regardless of the
former chain, a former-chain hit is returned only when the current
chain misses, and the lookup fails with a KeyError exactly when the
type is absent from both chains. -/
theorem c2_amended :
    (∀ (st : Analysis) (t : AnalyzerType) (a : AnalyzerInst),
      alookup st.chain t = some a → get_analyzer st t = .ok a) ∧
    (∀ (st : Analysis) (t : AnalyzerType) (a : AnalyzerInst),
      alookup st.chain t = none → alookup st.formerChain t = some a →
      get_analyzer st t = .ok a) ∧
    (∀ (st : Analysis) (t : AnalyzerType),
      alookup st.chain t = none → alookup st.formerChain t = none →
      get_analyzer st t =
        .error (.keyError ("Analyzer " ++ className t ++ " not found."))) := by
  refine ⟨?_, ?_, ?_⟩
  · intro st t a h
    unfold get_analyzer
    rw [h]
  · intro st t a h1 h2
    unfold get_analyzer
    rw [h1, h2]
  · intro st t h1 h2
    unfold get_analyzer
    rw [h1, h2]

/-- C2 (amended) witness: all three lookup branches at concrete
states. -/
theorem c2_amended_witness :
    (alookup c2St.chain .size = some c2Chain ∧ get_analyzer c2St .size = .ok c2Chain) ∧
    (alookup goodSt.chain .size = none ∧ alookup goodSt.formerChain .size = none ∧
      get_analyzer goodSt .size =
        .error (.keyError ("Analyzer " ++ className .size ++ " not found."))) :=
  ⟨⟨by decide, c2_amended.1 c2St .size c2Chain (by decide)⟩,
   ⟨by decide, by decide, c2_amended.2.2 goodSt .size (by decide) (by decide)⟩⟩

/-! ### C3 -/

/-- The partition loop re-queues every analyzer of a fully stalled pass
in order, leaving the state unchanged up to the re-assembled waiting
line. -/
theorem prepLoop_stall :
    ∀ (l : List AnalyzerInst) (st : Analysis) (added : Bool),
      (∀ a ∈ l, check_dependencies st a = .ok false) →
      prepLoop st added l = .ok ({ st with waitingLine := st.waitingLine ++ l }, added) := by
  intro l
  induction l with
  | nil => intro st added _; simp [prepLoop]
  | cons a rest ih =>
    intro st added h
    have ha := h a (List.mem_cons_self a rest)
    simp only [prepLoop, ha]
    have hrest : ∀ x ∈ rest,
        check_dependencies { st with waitingLine := st.waitingLine ++ [a] } x = .ok false := by
      intro x hx
      exact h x (List.mem_cons_of_mem a hx)
    rw [ih _ added hrest]
    have hl : (st.waitingLine ++ [a]) ++ rest = st.waitingLine ++ a :: rest := by
      rw [List.append_assoc]; rfl
    rw [hl]

/-- A prepare pass reporting done has an empty waiting line. -/
theorem prepare_next_chain_true {st st3 : Analysis} :
    prepare_next_chain st = .ok (true, st3) → st3.waitingLine = [] := by
  unfold prepare_next_chain
  split
  · next hie =>
    intro h
    cases h
    simpa using hie
  · next hie =>
    split
    · intro h; cases h
    · next st2 added =>
      split
      · intro h; cases h
      · intro h; cases h

/-- A run of the analyze loop that returns normally ends with an empty
waiting line. -/
theorem analyzeFuel_ok_empty :
    ∀ (n : Nat) (st st' : Analysis), analyzeFuel n st = .ok st' → st'.waitingLine = [] := by
  intro n
  induction n with
  | zero => intro st st' h; cases h
  | succ n ih =>
    intro st st' h
    unfold analyzeFuel at h
    cases hc : analyzeChain st with
    | error e => rw [hc] at h; cases h
    | ok st1 =>
      rw [hc] at h
      dsimp only at h
      cases hp : prepare_next_chain (store_results st1) with
      | error e => rw [hp] at h; cases h
      | ok p =>
        obtain ⟨b, st3⟩ := p
        rw [hp] at h
        cases b with
        | true => cases h; exact prepare_next_chain_true hp
        | false => exact ih st3 st' h

/-- C3: counterexample to FormerDependencyError being the only way the
waiting line is abandoned non-empty: registering a
SequenceFlowSumAnalyzer on a scheduler whose param_results is None is
legal (the analyzer requires only results), but analyze then dies with
the TypeError raised by iterating None, leaving the registered analyzer
in the waiting line without any FormerDependencyError. -/
theorem c3_counterexample :
    registerNew noParamSt .sequenceFlowSum = .ok c3errSt ∧
    analyze c3errSt = .error (.typeError "param_results is not iterable", c3errSt) ∧
    c3errSt.waitingLine ≠ [] := by
  refine ⟨by decide, by decide, by decide⟩

/-- C3 (amended): a full pass over a non-empty waiting line in which
every analyzer is blocked on its cross-barrier dependencies (its
same-stage check passes, so the pass completes) raises
FormerDependencyError whose message names every stuck analyzer, and a
normally returning analyze always ends with an empty waiting line; but
a pass can also abort with other exceptions (see the counterexample),
so this is not the only way a run abandons a non-empty line. -/
theorem c3_amended :
    (∀ st : Analysis, st.waitingLine ≠ [] →
      (∀ a ∈ st.waitingLine, check_dependencies st a = .ok false) →
      prepare_next_chain st = .error (.formerDependencyError
        (formerMsgHead ++ String.intercalate ","
          (st.waitingLine.map (fun a => className a.atype))), st)) ∧
    (∀ (st st' : Analysis), analyze st = .ok st' → st'.waitingLine = []) := by
  constructor
  · intro st hne h
    have hie : st.waitingLine.isEmpty = false := by
      cases hcase : st.waitingLine with
      | nil => exact absurd hcase hne
      | cons a rest => rfl
    have hstall := prepLoop_stall st.waitingLine { st with waitingLine := [] } false
      (fun a ha => h a ha)
    unfold prepare_next_chain
    rw [hie]
    simp only [Bool.false_eq_true, if_false]
    rw [hstall]
    rfl
  · intro st st' h
    exact analyzeFuel_ok_empty _ st st' h

/-- C3 (amended) witness: the stalled scheduler c3wSt (an LCOEAnalyzer
waiting for an uncommitted NodeBalanceAnalyzer) raises
FormerDependencyError naming it, and a trivial successful run ends with
an empty line. -/
theorem c3_amended_witness :
    (c3wSt.waitingLine ≠ [] ∧
      (∀ a ∈ c3wSt.waitingLine, check_dependencies c3wSt a = .ok false) ∧
      prepare_next_chain c3wSt = .error (.formerDependencyError
        (formerMsgHead ++ String.intercalate ","
          (c3wSt.waitingLine.map (fun a => className a.atype))), c3wSt)) ∧
    (analyze goodSt = .ok goodSt ∧ goodSt.waitingLine = []) :=
  ⟨⟨by decide, by decide, c3_amended.1 c3wSt (by decide) (by decide)⟩,
   ⟨by decide, c3_amended.2 goodSt goodSt (by decide)⟩⟩

/-! ### C4 -/

/-- C4: counterexample: registering a second, freshly constructed
SizeAnalyzer is not detected as a duplicate (the membership test
compares object identity), so two instances of the same analyzer type
end up in the waiting line, contradicting the claimed
one-instance-per-type guarantee; nothing in the source ever emits the
claimed warning. -/
theorem c4_counterexample :
    registerNew goodSt .size = .ok c4St1 ∧
    registerNew c4St1 .size = .ok c4St2 ∧
    c4St2.waitingLine.map (fun a => a.atype) = [.size, .size] := by
  refine ⟨by decide, by decide, by decide⟩

/-- C4 (amended): re-registering the same analyzer object is a silent
no-op (the state is returned unchanged and the source contains no
warning call), and a fresh analyzer object passing the checks is
appended to the waiting line, with every declared dependency registered
as a new instance regardless of what is already present (here
instantiated for dependency-free analyzers, for which registration is a
plain append). -/
theorem c4_amended :
    (∀ (st : Analysis) (a : AnalyzerInst),
      st.waitingLine.any (fun b => b.iid == a.iid) = true →
      add_analyzer st a = .ok st) ∧
    (∀ (st : Analysis) (a : AnalyzerInst),
      st.waitingLine.any (fun b => b.iid == a.iid) = false →
      dependsOn a.atype = [] → dependsOnFormer a.atype = [] →
      check_requirements st a.atype = .ok () →
      check_iterator st a.atype = .ok () →
      add_analyzer st a = .ok { st with waitingLine := st.waitingLine ++ [a] }) := by
  constructor
  · intro st a h
    show addAux (7 + 1) st a = .ok st
    simp only [addAux, h]
    rfl
  · intro st a h hd1 hd2 hreq hiter
    show addAux (7 + 1) st a = .ok { st with waitingLine := st.waitingLine ++ [a] }
    simp only [addAux, h, hreq, hiter, hd1, hd2]
    rfl

/-- C4 (amended) witness: the same SizeAnalyzer object registered twice
is a no-op the second time, and a fresh one is appended. -/
theorem c4_amended_witness :
    (c4St1.waitingLine.any (fun b => b.iid == (mkInstance .size 0).iid) = true ∧
      add_analyzer c4St1 (mkInstance .size 0) = .ok c4St1) ∧
    (goodSt.waitingLine.any (fun b => b.iid == (mkInstance .size 0).iid) = false ∧
      dependsOn .size = [] ∧ dependsOnFormer .size = [] ∧
      check_requirements goodSt .size = .ok () ∧
      check_iterator goodSt .size = .ok () ∧
      add_analyzer goodSt (mkInstance .size 0) =
        .ok { goodSt with waitingLine := goodSt.waitingLine ++ [mkInstance .size 0] }) :=
  ⟨⟨by decide, c4_amended.1 c4St1 (mkInstance .size 0) (by decide)⟩,
   ⟨by decide, by decide, by decide, by decide, by decide,
    c4_amended.2 goodSt (mkInstance .size 0) (by decide) (by decide) (by decide)
      (by decide) (by decide)⟩⟩

/-! ### C7 -/

/-- C7: counterexample to the distinct RequirementMismatch failure: an
incompatible required iterator raises the same RequirementError
exception class as a missing dataset does (the module defines no
separate mismatch exception), though registration does fail immediately
with the waiting line untouched in both cases. -/
theorem c7_counterexample :
    registerNew tupleSt .nodeBalance =
      .error (.requirementError "Analyzer NodeBalanceAnalyzer requires another iterator",
        { tupleSt with nextId := 1 }) ∧
    registerNew noParamSt .invest =
      .error (.requirementError "Component InvestAnalyzer misses a requirement",
        { noParamSt with nextId := 1 }) := by
  refine ⟨by decide, by decide⟩

/-- C7 (amended): requirement checks happen at registration: a fresh
analyzer whose check_requirements or check_iterator fails makes
add_analyzer raise that error with the scheduler state unchanged (the
analyzer never enters the waiting line); a required dataset that is
None makes check_requirements fail with RequirementError, and an
incompatible required iterator makes check_iterator fail with
RequirementError as well (there is no separate mismatch exception
class). -/
theorem c7_amended :
    (∀ (st : Analysis) (a : AnalyzerInst) (e : PyError),
      st.waitingLine.any (fun b => b.iid == a.iid) = false →
      check_requirements st a.atype = .error e →
      add_analyzer st a = .error (e, st)) ∧
    (∀ (st : Analysis) (a : AnalyzerInst) (e : PyError),
      st.waitingLine.any (fun b => b.iid == a.iid) = false →
      check_requirements st a.atype = .ok () →
      check_iterator st a.atype = .error e →
      add_analyzer st a = .error (e, st)) ∧
    (∀ (st : Analysis) (t : AnalyzerType) (r : Req),
      r ∈ requiresOf t → getattrReq st r = none →
      ∃ m, check_requirements st t = .error (.requirementError m)) ∧
    (∀ (st : Analysis) (t : AnalyzerType) (it : IterType),
      requiredIterator t = some it → issubclassIter st.iterator it = false →
      check_iterator st t = .error (.requirementError
        ("Analyzer " ++ className t ++ " requires another iterator"))) := by
  refine ⟨?_, ?_, ?_, ?_⟩
  · intro st a e h hreq
    show addAux (7 + 1) st a = .error (e, st)
    simp only [addAux, h, hreq]
    rfl
  · intro st a e h hreq hiter
    show addAux (7 + 1) st a = .error (e, st)
    simp only [addAux, h, hreq, hiter]
    rfl
  · intro st t r hr hn
    have hfind : ((requiresOf t).find? (fun r => (getattrReq st r).isNone)).isSome := by
      rw [List.find?_isSome]
      exact ⟨r, hr, by rw [hn]; rfl⟩
    obtain ⟨r0, hr0⟩ := Option.isSome_iff_exists.mp hfind
    refine ⟨"Component " ++ className t ++ " misses a requirement", ?_⟩
    unfold check_requirements
    rw [hr0]
  · intro st t it h1 h2
    unfold check_iterator
    rw [h1]
    simp only [h2, Bool.false_eq_true, if_false]

/-- C7 (amended) witness: the missing-dataset case on InvestAnalyzer
and the incompatible-iterator case on NodeBalanceAnalyzer. -/
theorem c7_amended_witness :
    (noParamSt.waitingLine.any (fun b => b.iid == (mkInstance .invest 0).iid) = false ∧
      check_requirements noParamSt .invest =
        .error (.requirementError "Component InvestAnalyzer misses a requirement") ∧
      add_analyzer noParamSt (mkInstance .invest 0) =
        .error (.requirementError "Component InvestAnalyzer misses a requirement", noParamSt)) ∧
    (check_requirements tupleSt .nodeBalance = .ok () ∧
      check_iterator tupleSt .nodeBalance =
        .error (.requirementError "Analyzer NodeBalanceAnalyzer requires another iterator") ∧
      add_analyzer tupleSt (mkInstance .nodeBalance 0) =
        .error (.requirementError "Analyzer NodeBalanceAnalyzer requires another iterator",
          tupleSt)) ∧
    ((Req.param_results ∈ requiresOf .invest ∧ getattrReq noParamSt .param_results = none) ∧
      ∃ m, check_requirements noParamSt .invest = .error (.requirementError m)) ∧
    ((requiredIterator .nodeBalance = some .flowNode ∧
        issubclassIter tupleSt.iterator .flowNode = false) ∧
      check_iterator tupleSt .nodeBalance =
        .error (.requirementError "Analyzer NodeBalanceAnalyzer requires another iterator")) :=
  ⟨⟨by decide, by decide,
    c7_amended.1 noParamSt (mkInstance .invest 0) _ (by decide) (by decide)⟩,
   ⟨by decide, by decide,
    c7_amended.2.1 tupleSt (mkInstance .nodeBalance 0) _ (by decide) (by decide) (by decide)⟩,
   ⟨⟨by decide, by decide⟩,
    c7_amended.2.2.1 noParamSt .invest .param_results (by decide) (by decide)⟩,
   ⟨⟨by decide, by decide⟩,
    c7_amended.2.2.2 tupleSt .nodeBalance .flowNode (by decide) (by decide)⟩⟩

/-! ### C8 -/

/-- C8: counterexample: registering a BusBalanceAnalyzer without its
FlowTypeAnalyzer dependency being present raises nothing at all —
registration succeeds and recursively registers fresh
SequenceFlowSumAnalyzer and FlowTypeAnalyzer instances itself. -/
theorem c8_counterexample :
    registerNew goodSt .busBalance = .ok { goodSt with
      waitingLine := [mkInstance .sequenceFlowSum 1, mkInstance .flowType 2,
                      mkInstance .busBalance 0],
      nextId := 3 } := by decide

/-- C8 (amended): on a fresh scheduler with both datasets configured
and the FlowNodeIterator active, registering a BusBalanceAnalyzer never
raises DependencyError: add_analyzer checks no dependencies at
registration but recursively registers a fresh instance of each
declared dependency before appending the analyzer, so the waiting line
ends up holding SequenceFlowSumAnalyzer, FlowTypeAnalyzer and
BusBalanceAnalyzer. -/
theorem c8_amended (rs pr : Dataset) :
    registerNew (initAnalysis (some rs) (some pr) none) .busBalance =
      .ok { results := some rs, param_results := some pr, iterator := .flowNode,
            waitingLine := [mkInstance .sequenceFlowSum 1, mkInstance .flowType 2,
                            mkInstance .busBalance 0],
            chain := [], formerChain := [], nextId := 3 } := by
  rfl

/-! ### C5 -/

/-- C5: a key whose required data is absent is skipped silently: when
the results entry or its flow sequence is missing,
SequenceFlowSumAnalyzer.analyze returns the analyzer unchanged (no
result entry, total untouched, no exception); likewise SizeAnalyzer
without an invest scalar, and InvestAnalyzer without the param entry,
the Size result for the key, or the investment_ep_costs scalar. -/
theorem c5_sparse_key_skip :
    (∀ (st : Analysis) (rs : Dataset) (a : AnalyzerInst) (k : FlowKey),
      st.results = some rs →
      (alookup rs k).bind (fun e => alookup e.sequences "flow") = none →
      sequenceFlowSumAnalyze st a k = .ok a) ∧
    (∀ (st : Analysis) (rs : Dataset) (a : AnalyzerInst) (k : FlowKey),
      st.results = some rs →
      (alookup rs k).bind (fun e => alookup e.scalars "invest") = none →
      sizeAnalyze st a k = .ok a) ∧
    (∀ (st : Analysis) (pr : Dataset) (a dep : AnalyzerInst) (k : FlowKey),
      st.param_results = some pr →
      get_analyzer st .size = .ok dep →
      (alookup pr k = none ∨ alookup dep.result (.pair k) = none ∨
        (alookup pr k).bind (fun e => alookup e.scalars "investment_ep_costs") = none) →
      investAnalyze st a k = .ok a) := by
  refine ⟨?_, ?_, ?_⟩
  · intro st rs a k hrs h
    unfold sequenceFlowSumAnalyze rsq
    simp only [hrs]
    cases hk : alookup rs k with
    | none => simp [hk]
    | some e =>
      rw [hk] at h
      simp only [Option.some_bind] at h
      simp [hk, h]
  · intro st rs a k hrs h
    unfold sizeAnalyze rsc
    simp only [hrs]
    cases hk : alookup rs k with
    | none => simp [hk]
    | some e =>
      rw [hk] at h
      simp only [Option.some_bind] at h
      simp [hk, h]
  · intro st pr a dep k hpr hdep h
    unfold investAnalyze psc
    simp only [hdep, hpr]
    rcases h with h | h | h
    · simp [h]
    · cases hk : alookup pr k with
      | none => simp [hk]
      | some e => simp [hk, h]
    · cases hk : alookup pr k with
      | none => simp [hk]
      | some e =>
        rw [hk] at h
        simp only [Option.some_bind] at h
        cases hd : alookup dep.result (.pair k) with
        | none => simp [hk, hd]
        | some sv => simp [hk, hd, h]

/-- C5 witness: the fixture dataset holds the key but neither a flow
sequence, nor an invest scalar, nor an investment_ep_costs scalar, and
the SizeAnalyzer dependency of c5invSt has no result for it; all three
analyzers skip it. -/
theorem c5_sparse_key_skip_witness :
    (c5St.results = some [((n0, some n1), entryEmpty)] ∧
      sequenceFlowSumAnalyze c5St (mkInstance .sequenceFlowSum 7) (n0, some n1) =
        .ok (mkInstance .sequenceFlowSum 7)) ∧
    (sizeAnalyze c5St (mkInstance .size 8) (n0, some n1) = .ok (mkInstance .size 8)) ∧
    (c5invSt.param_results = some [((n0, some n1), entryEmpty)] ∧
      get_analyzer c5invSt .size = .ok (mkInstance .size 0) ∧
      investAnalyze c5invSt (mkInstance .invest 9) (n0, some n1) =
        .ok (mkInstance .invest 9)) :=
  ⟨⟨by decide, c5_sparse_key_skip.1 c5St [((n0, some n1), entryEmpty)]
      (mkInstance .sequenceFlowSum 7) (n0, some n1) (by decide) (by decide)⟩,
   c5_sparse_key_skip.2.1 c5St [((n0, some n1), entryEmpty)]
      (mkInstance .size 8) (n0, some n1) (by decide) (by decide),
   ⟨by decide, by decide,
    c5_sparse_key_skip.2.2 c5invSt [((n0, some n1), entryEmpty)]
      (mkInstance .invest 9) (mkInstance .size 0) (n0, some n1) (by decide) (by decide)
      (Or.inr (Or.inl (by decide)))⟩⟩

/-! ### C6 -/

/-- The inner loop of LCOEAnalyzer.init_analyzer accumulates the
SequenceFlowSum results of the visited input flows. -/
theorem lcoeFlowStep_fold (seqRes : List (ResKey × ResVal)) (toNode : PyNode)
    (vals : PyNode → ℚ) :
    ∀ (fs : List PyNode) (acc : ℚ),
      (∀ f ∈ fs, alookup seqRes (.pair (f, some toNode)) = some (.num (vals f))) →
      fs.foldlM (lcoeFlowStep seqRes toNode) acc = .ok (acc + (fs.map vals).sum) := by
  intro fs
  induction fs with
  | nil => intro acc _; simp; rfl
  | cons f fs ih =>
    intro acc h
    rw [List.foldlM_cons]
    have hf := h f (List.mem_cons_self f fs)
    have hstep : lcoeFlowStep seqRes toNode acc f = .ok (acc + vals f) := by
      unfold lcoeFlowStep
      rw [hf]
    rw [hstep]
    show fs.foldlM (lcoeFlowStep seqRes toNode) (acc + vals f) = _
    rw [ih (acc + vals f) (fun x hx => h x (List.mem_cons_of_mem f hx))]
    rw [List.map_cons, List.sum_cons, add_assoc]

/-- The outer loop of LCOEAnalyzer.init_analyzer accumulates, over the
load sinks, the sums of the SequenceFlowSum results of the keys of each
input bucket. -/
theorem lcoeSinkStep_fold (seqRes nbRes : List (ResKey × ResVal))
    (buckets outs : PyNode → List (PyNode × ℚ)) (vals : PyNode → PyNode → ℚ) :
    ∀ (sinks : List PyNode) (acc : ℚ),
      (∀ s ∈ sinks, alookup nbRes (.node s) = some (.balance (buckets s) (outs s))) →
      (∀ s ∈ sinks, ∀ p ∈ buckets s,
        alookup seqRes (.pair (p.1, some s)) = some (.num (vals p.1 s))) →
      sinks.foldlM (lcoeSinkStep seqRes nbRes) acc =
        .ok (acc + (sinks.map
          (fun s => (((buckets s).map Prod.fst).map (fun f => vals f s)).sum)).sum) := by
  intro sinks
  induction sinks with
  | nil => intro acc _ _; simp; rfl
  | cons s sinks ih =>
    intro acc hb hv
    rw [List.foldlM_cons]
    have hstep : lcoeSinkStep seqRes nbRes acc s =
        .ok (acc + (((buckets s).map Prod.fst).map (fun f => vals f s)).sum) := by
      unfold lcoeSinkStep
      rw [hb s (List.mem_cons_self s sinks)]
      refine lcoeFlowStep_fold seqRes s (fun f => vals f s) ((buckets s).map Prod.fst) acc ?_
      intro f hf
      obtain ⟨p, hp, rfl⟩ := List.mem_map.mp hf
      exact hv s (List.mem_cons_self s sinks) p hp
    rw [hstep]
    show sinks.foldlM (lcoeSinkStep seqRes nbRes) _ = _
    rw [ih _ (fun x hx => hb x (List.mem_cons_of_mem s hx))
      (fun x hx => hv x (List.mem_cons_of_mem s hx))]
    rw [List.map_cons, List.sum_cons, add_assoc]

/-- C6: LCOEAnalyzer behaviour.  init_analyzer sets total_load to the
sum over all load sinks of the SequenceFlowSum results of the input
edges (from_node, to_node) recorded in the NodeBalanceAnalyzer result
of each sink.  analyze then skips a key entirely when both the
VariableCost and the Invest result are missing, and otherwise treats a
single missing term as zero, storing the LCOEResult pair of the two
terms divided by total_load and adding (invest + variable_costs) /
total_load to the running total. -/
theorem c6_lcoe :
    (∀ (st : Analysis) (a seqI nbI : AnalyzerInst)
        (buckets outs : PyNode → List (PyNode × ℚ)) (vals : PyNode → PyNode → ℚ),
      get_analyzer st .sequenceFlowSum = .ok seqI →
      get_analyzer st .nodeBalance = .ok nbI →
      a.totalLoad = 0 →
      (∀ s ∈ a.loadSinks, alookup nbI.result (.node s) = some (.balance (buckets s) (outs s))) →
      (∀ s ∈ a.loadSinks, ∀ p ∈ buckets s,
        alookup seqI.result (.pair (p.1, some s)) = some (.num (vals p.1 s))) →
      lcoeInit st a = .ok { a with totalLoad :=
        (a.loadSinks.map
          (fun s => (((buckets s).map Prod.fst).map (fun f => vals f s)).sum)).sum }) ∧
    (∀ (st : Analysis) (b vcI invI : AnalyzerInst) (k : FlowKey),
      get_analyzer st .variableCost = .ok vcI →
      get_analyzer st .invest = .ok invI →
      b.totalLoad ≠ 0 →
      (lookupNum vcI.result (.pair k) = none → lookupNum invI.result (.pair k) = none →
        lcoeAnalyze st b k = .ok b) ∧
      (∀ v, lookupNum vcI.result (.pair k) = some v → lookupNum invI.result (.pair k) = none →
        lcoeAnalyze st b k = .ok { b with
          result := odInsert b.result (.pair k) (.lcoeRes (0 / b.totalLoad) (v / b.totalLoad)),
          total := b.total + (0 + v) / b.totalLoad }) ∧
      (∀ w, lookupNum vcI.result (.pair k) = none → lookupNum invI.result (.pair k) = some w →
        lcoeAnalyze st b k = .ok { b with
          result := odInsert b.result (.pair k) (.lcoeRes (w / b.totalLoad) (0 / b.totalLoad)),
          total := b.total + (w + 0) / b.totalLoad })) := by
  constructor
  · intro st a seqI nbI buckets outs vals hseq hnb h0 hb hv
    unfold lcoeInit
    simp only [hseq, hnb]
    rw [lcoeSinkStep_fold seqI.result nbI.result buckets outs vals a.loadSinks a.totalLoad hb hv]
    rw [h0, zero_add]
  · intro st b vcI invI k hvc hinv htl
    have hne : (b.totalLoad == 0) = false := by
      simp [htl]
    refine ⟨?_, ?_, ?_⟩
    · intro h1 h2
      unfold lcoeAnalyze
      simp only [hvc, hinv, h1, h2]
    · intro v h1 h2
      unfold lcoeAnalyze
      simp only [hvc, hinv, h1, h2, hne]
      rw [div_add_div_same]
      simp
    · intro w h1 h2
      unfold lcoeAnalyze
      simp only [hvc, hinv, h1, h2, hne]
      rw [div_add_div_same]
      simp

/-- C6 witness: at the fixture chain, init on LCOEAnalyzer([n1]) sums
the one input edge (n0, n1) to a total load of 100; with it at 100, a
key holding only a VariableCost result of 125 gets the pair
(0/100, 125/100) and the total grows by 1.25, while a key with neither
term is skipped. -/
theorem c6_lcoe_witness :
    (get_analyzer c6St .sequenceFlowSum = .ok c6seq ∧
      get_analyzer c6St .nodeBalance = .ok c6nb ∧
      lcoeInit c6St c6a = .ok { c6a with totalLoad := 100 }) ∧
    (lookupNum c6vc.result (.pair (n0, some n1)) = some 125 ∧
      lookupNum c6inv.result (.pair (n0, some n1)) = none ∧
      lcoeAnalyze c6St c6b (n0, some n1) = .ok { c6b with
        result := odInsert c6b.result (.pair (n0, some n1))
          (.lcoeRes (0 / c6b.totalLoad) (125 / c6b.totalLoad)),
        total := c6b.total + (0 + 125) / c6b.totalLoad } ∧
      lcoeAnalyze c6St c6b (n2, none) = .ok c6b) := by
  have h1 := c6_lcoe.1 c6St c6a c6seq c6nb
    (fun _ => [(n0, 100)]) (fun _ => []) (fun _ _ => 100)
    (by decide) (by decide) (by decide) (by decide) (by decide)
  have h2 := (c6_lcoe.2 c6St c6b c6vc c6inv (n0, some n1)
    (by decide) (by decide) (by decide)).2.1 125 (by decide) (by decide)
  have h3 := (c6_lcoe.2 c6St c6b c6vc c6inv (n2, none)
    (by decide) (by decide) (by decide)).1 (by decide) (by decide)
  refine ⟨⟨by decide, by decide, ?_⟩, ⟨by decide, by decide, h2, h3⟩⟩
  refine h1.trans ?_
  norm_num [c6a, mkInstance]

/-! ### C9 -/

/-- C9: clean discards the waiting line, both chains and every held
analyzer object; running any identical registration sequence and
analysis afterwards is a pure function of the datasets and the active
iterator, so two cleaned schedulers over identical datasets produce
identical runs (identical result mappings and totals in every
analyzer). -/
theorem c9_clean_rerun_deterministic :
    ∀ (s1 s2 : Analysis) (cmds : List RegCmd),
      s1.results = s2.results → s1.param_results = s2.param_results →
      s1.iterator = s2.iterator →
      runAll (clean s1) cmds = runAll (clean s2) cmds := by
  intro s1 s2 cmds h1 h2 h3
  have hcl : clean s1 = clean s2 := by
    cases s1; cases s2
    simp only [clean]
    simp_all
  rw [hcl]

/-- C9 witness: a scheduler with leftover bookkeeping and a fresh one
over the same datasets produce identical runs after clean. -/
theorem c9_clean_rerun_deterministic_witness :
    (c9s1.results = goodSt.results ∧ c9s1.param_results = goodSt.param_results ∧
      c9s1.iterator = goodSt.iterator) ∧
    runAll (clean c9s1) [.reg .sequenceFlowSum] = runAll (clean goodSt) [.reg .sequenceFlowSum] :=
  ⟨⟨by decide, by decide, by decide⟩,
   c9_clean_rerun_deterministic c9s1 goodSt [.reg .sequenceFlowSum]
     (by decide) (by decide) (by decide)⟩

/-! ### C10 -/

/-- A dict assignment makes the assigned key present with the assigned
value. -/
theorem alookup_odInsert_self {α β : Type} [BEq α] [LawfulBEq α]
    (l : List (α × β)) (k : α) (v : β) : alookup (odInsert l k v) k = some v := by
  induction l with
  | nil => simp [odInsert, alookup]
  | cons p rest ih =>
    obtain ⟨k0, v0⟩ := p
    unfold odInsert
    cases hb : k0 == k with
    | true => simp [alookup]
    | false => simp [alookup, hb, ih]

/-- A dict assignment leaves every other key unchanged. -/
theorem alookup_odInsert_ne {α β : Type} [BEq α] [LawfulBEq α]
    (l : List (α × β)) (k k2 : α) (v : β) (h : k ≠ k2) :
    alookup (odInsert l k v) k2 = alookup l k2 := by
  have hb : (k == k2) = false := beq_eq_false_iff_ne.mpr h
  induction l with
  | nil => simp [odInsert, alookup, hb]
  | cons p rest ih =>
    obtain ⟨k0, v0⟩ := p
    unfold odInsert
    cases hb0 : k0 == k with
    | true =>
      have hk0 : k0 = k := eq_of_beq hb0
      subst hk0
      simp [alookup, hb]
    | false => simp [alookup, ih]

/-- C10: NodeBalanceAnalyzer keys its result by the bare node: a
successfully processed node-level key (n, None) stores the balance
under n itself and leaves the full key (n, None) absent from the result
dict; every analyzer other than NodeBalanceAnalyzer and its subclass
either leaves its result dict unchanged on a key or writes under the
full args tuple; and LCOEAnalyzer.init_analyzer relies on the bare-node
keying by looking the node balance up directly under the load-sink
node (failing with the uncaught KeyError when that bare-node entry is
missing). -/
theorem c10_node_keyed :
    (∀ (st : Analysis) (a seqI ftI : AnalyzerInst) (n : PyNode) (s i o : List FlowKey),
      get_analyzer st .sequenceFlowSum = .ok seqI →
      get_analyzer st .flowType = .ok ftI →
      alookup ftI.result (.pair (n, none)) = some (.flowTypes s i o) →
      alookup a.result (.pair (n, none)) = none →
      nodeBalanceAnalyze st a (n, none) = .ok { a with result := (odInsert a.result (.node n)
        (.balance (nbInputPairs seqI.result i) (nbOutputPairs seqI.result o))) } ∧
      alookup (odInsert a.result (.node n)
          (.balance (nbInputPairs seqI.result i) (nbOutputPairs seqI.result o))) (.node n) =
        some (.balance (nbInputPairs seqI.result i) (nbOutputPairs seqI.result o)) ∧
      alookup (odInsert a.result (.node n)
          (.balance (nbInputPairs seqI.result i) (nbOutputPairs seqI.result o)))
        (.pair (n, none)) = none) ∧
    (∀ (st : Analysis) (a a2 : AnalyzerInst) (k : FlowKey),
      a.atype ≠ .nodeBalance → a.atype ≠ .busBalance →
      analyzerAnalyze st a k = .ok a2 →
      a2 = a ∨ ∃ v, a2.result = odInsert a.result (.pair k) v) ∧
    (∀ (st : Analysis) (b seqI nbI : AnalyzerInst) (sink : PyNode),
      get_analyzer st .sequenceFlowSum = .ok seqI →
      get_analyzer st .nodeBalance = .ok nbI →
      b.loadSinks = [sink] →
      alookup nbI.result (.node sink) = none →
      lcoeInit st b = .error (.keyError "load sink missing")) := by
  refine ⟨?_, ?_, ?_⟩
  · intro st a seqI ftI n s i o hseq hft hclass hnotin
    refine ⟨?_, alookup_odInsert_self _ _ _, ?_⟩
    · unfold nodeBalanceAnalyze
      simp only [hseq, hft, hclass]
      rfl
    · rw [alookup_odInsert_ne _ _ _ _ (by simp)]
      exact hnotin
  · intro st a a2 k hnb hbb h
    cases hat : a.atype with
    | nodeBalance => exact absurd hat hnb
    | busBalance => exact absurd hat hbb
    | sequenceFlowSum =>
      simp only [analyzerAnalyze, hat] at h
      unfold sequenceFlowSumAnalyze rsq at h
      repeat' split at h
      all_goals
        first
        | (injection h with h; subst h;
           first
           | exact Or.inl rfl
           | exact Or.inr ⟨_, rfl⟩)
        | cases h
    | size =>
      simp only [analyzerAnalyze, hat] at h
      unfold sizeAnalyze rsc at h
      repeat' split at h
      all_goals
        first
        | (injection h with h; subst h;
           first
           | exact Or.inl rfl
           | exact Or.inr ⟨_, rfl⟩)
        | cases h
    | invest =>
      simp only [analyzerAnalyze, hat] at h
      unfold investAnalyze psc at h
      repeat' split at h
      all_goals
        first
        | (injection h with h; subst h;
           first
           | exact Or.inl rfl
           | exact Or.inr ⟨_, rfl⟩)
        | cases h
    | variableCost =>
      simp only [analyzerAnalyze, hat] at h
      unfold variableCostAnalyze psc at h
      repeat' split at h
      all_goals
        first
        | (injection h with h; subst h;
           first
           | exact Or.inl rfl
           | exact Or.inr ⟨_, rfl⟩)
        | cases h
    | flowType =>
      simp only [analyzerAnalyze, hat] at h
      unfold flowTypeAnalyze at h
      repeat' split at h
      all_goals
        first
        | (injection h with h; subst h;
           first
           | exact Or.inl rfl
           | exact Or.inr ⟨_, rfl⟩)
        | cases h
    | lcoe =>
      simp only [analyzerAnalyze, hat] at h
      unfold lcoeAnalyze at h
      repeat' split at h
      all_goals
        first
        | (injection h with h; subst h;
           first
           | exact Or.inl rfl
           | exact Or.inr ⟨_, rfl⟩)
        | cases h
  · intro st b seqI nbI sink hseq hnb hsinks hmiss
    unfold lcoeInit
    simp only [hseq, hnb, hsinks]
    rw [List.foldlM_cons]
    have hstep : lcoeSinkStep seqI.result nbI.result b.totalLoad sink =
        .error (.keyError "load sink missing") := by
      unfold lcoeSinkStep
      rw [hmiss]
    rw [hstep]
    rfl

/-- C10 witness: at the fixture chain, the node key (n2, None) stores
balance buckets under the bare n2 and not under the pair key; a
SequenceFlowSumAnalyzer that skips a key leaves its result unchanged;
and init on LCOEAnalyzer([n0]) dies with KeyError when the node
balance holds no bare-node entry for n0. -/
theorem c10_node_keyed_witness :
    (get_analyzer c10St .sequenceFlowSum = .ok c10seq ∧
      get_analyzer c10St .flowType = .ok c10ft ∧
      alookup c10ft.result (.pair (n2, none)) =
        some (.flowTypes [] [(n0, some n2)] [(n2, some n1)]) ∧
      alookup c10a.result (.pair (n2, none)) = none ∧
      nodeBalanceAnalyze c10St c10a (n2, none) = .ok { c10a with
        result := (odInsert c10a.result (.node n2)
          (.balance (nbInputPairs c10seq.result [(n0, some n2)])
                    (nbOutputPairs c10seq.result [(n2, some n1)]))) } ∧
      alookup (odInsert c10a.result (.node n2)
          (.balance (nbInputPairs c10seq.result [(n0, some n2)])
                    (nbOutputPairs c10seq.result [(n2, some n1)])))
        (.pair (n2, none)) = none) ∧
    (analyzerAnalyze c5St (mkInstance .sequenceFlowSum 7) (n0, some n1) =
        .ok (mkInstance .sequenceFlowSum 7) ∧
      (mkInstance .sequenceFlowSum 7 = mkInstance .sequenceFlowSum 7 ∨
        ∃ v, (mkInstance .sequenceFlowSum 7).result =
          odInsert (mkInstance .sequenceFlowSum 7).result (.pair (n0, some n1)) v)) ∧
    (get_analyzer c10nbSt .nodeBalance = .ok (mkInstance .nodeBalance 3) ∧
      c10b.loadSinks = [n0] ∧
      alookup (mkInstance .nodeBalance 3).result (.node n0) = none ∧
      lcoeInit c10nbSt c10b = .error (.keyError "load sink missing")) := by
  have h1 := (c10_node_keyed.1 c10St c10a c10seq c10ft n2 [] [(n0, some n2)] [(n2, some n1)]
    (by decide) (by decide) (by decide) (by decide))
  have h2 := c10_node_keyed.2.1 c5St (mkInstance .sequenceFlowSum 7)
    (mkInstance .sequenceFlowSum 7) (n0, some n1) (by decide) (by decide) (by decide)
  have h3 := c10_node_keyed.2.2 c10nbSt c10b c10seq (mkInstance .nodeBalance 3) n0
    (by decide) (by decide) (by decide) (by decide)
  exact ⟨⟨by decide, by decide, by decide, by decide, h1.1, h1.2.2⟩,
         ⟨by decide, h2⟩,
         ⟨by decide, by decide, by decide, h3⟩⟩

end Oemof
